import Mathlib

/-!
Verification of the AuraHub API gateway (FastAPI wrapper around the
Streamtape provider API) against its natural-language specification.

The development shallowly embeds the Python sources:
  * `src/config.py`               — configuration loader (`Settings`)
  * `src/api/services/streamtape_service.py` — forwarding layer
  * `src/api/endpoints/*.py` and `src/main.py` — route table

Machine-level JSON values are modelled by `JValue`; Python dicts whose
values are query-parameter strings are modelled as association lists with
Python insertion/overwrite semantics (`dictInsert`, `dictMerge`).  The
transport layer (httpx) is abstracted away: each operation is modelled as
a function of the parsed provider JSON response, which is exactly the
part of the code the claims speak about.
-/

namespace AuraHub

/-- A parsed JSON value, as produced by `response.json()`. -/
inductive JValue where
  | jnull
  | jbool (b : Bool)
  | jnum (n : Int)
  | jstr (s : String)
  | jarr (xs : List JValue)
  | jobj (fields : List (String × JValue))
deriving Repr

/-- Python `d.get(k)` on a JSON object's field list. -/
def jget (fields : List (String × JValue)) (k : String) : Option JValue :=
  (fields.find? (fun p => p.1 = k)).map Prod.snd

/-- Python `v == 200` for a JSON value (the envelope status check). -/
def pyEq200 : JValue → Bool
  | .jnum n => n == 200
  | _ => false

mutual

/-- Python `repr` of a JSON value (approximated for containers). -/
def pyRepr : JValue → String
  | .jnull => "None"
  | .jbool b => if b then "True" else "False"
  | .jnum n => toString n
  | .jstr s => "'" ++ s ++ "'"
  | .jarr xs => "[" ++ String.intercalate ", " (pyReprList xs) ++ "]"
  | .jobj fs => "\x7b" ++ String.intercalate ", " (pyReprFields fs) ++ "\x7d"

def pyReprList : List JValue → List String
  | [] => []
  | x :: xs => pyRepr x :: pyReprList xs

def pyReprFields : List (String × JValue) → List String
  | [] => []
  | (k, v) :: fs => ("'" ++ k ++ "': " ++ pyRepr v) :: pyReprFields fs

end

/-- Python `str` of a JSON value (strings print without quotes). -/
def pyStr : JValue → String
  | .jstr s => s
  | v => pyRepr v

/-- Query-parameter dictionaries: ordered association lists with the keys
distinct, mirroring a Python `Dict[str, str]`. -/
abbrev ParamDict := List (String × String)

/-- Python `d[k] = v`: overwrite in place if present, else append. -/
def dictInsert (d : ParamDict) (k v : String) : ParamDict :=
  if (d.map Prod.fst).contains k then
    d.map (fun p => if p.1 = k then (k, v) else p)
  else
    d ++ [(k, v)]

/-- Python `{**a, **b}`. -/
def dictMerge (a b : ParamDict) : ParamDict :=
  b.foldl (fun acc p => dictInsert acc p.1 p.2) a

/-- Python `d.get(k)` on a parameter dictionary. -/
def dictGet (d : ParamDict) (k : String) : Option String :=
  (d.find? (fun p => p.1 = k)).map Prod.snd

/-- The keys of a parameter dictionary, in order. -/
def dictKeys (d : ParamDict) : List String := d.map Prod.fst

/-! ## Configuration loader (`src/config.py`) -/

/-- The raw `ALLOWED_ORIGINS` value: pydantic accepts `Union[str, List[str]]`. -/
inductive OriginsValue where
  | str (s : String)
  | list (l : List String)
deriving Repr, DecidableEq

/-- The settings held after `model_post_init` has run. -/
structure Settings where
  STREAMTAPE_BASE_URL : String
  STREAMTAPE_LOGIN : String
  STREAMTAPE_KEY : String
  ALLOWED_ORIGINS : List String
deriving Repr, DecidableEq

/-- Python truthiness test `not s` for an `Optional[str]` field:
`None` and the empty string are falsy. -/
def pyFalsy : Option String → Bool
  | none => true
  | some s => s == ""

/-- The `ValueError` message raised when credentials are missing. -/
def credentialsError : String :=
  "Streamtape API credentials (STREAMTAPE_LOGIN and STREAMTAPE_KEY) " ++
  "must be set as environment variables in the .env file."

/-- Python `str.split(',')` on the underlying character list. -/
def splitCommaChars : List Char → List (List Char)
  | [] => [[]]
  | c :: cs =>
    match splitCommaChars cs with
    | r :: rs => if c = ',' then [] :: r :: rs else (c :: r) :: rs
    | [] => if c = ',' then [[], []] else [[c]]

/-- Python `s.split(',')`. -/
def pySplitComma (s : String) : List String :=
  (splitCommaChars s.data).map (fun l => ⟨l⟩)

/-- The characters Python `str.strip()` removes by default. -/
def pyIsSpace (c : Char) : Bool :=
  c == ' ' || c == '\t' || c == '\n' || c == '\r' || c == '\x0b' || c == '\x0c'

/-- Python `s.strip()`. -/
def pyStrip (s : String) : String :=
  ⟨((s.data.dropWhile pyIsSpace).reverse.dropWhile pyIsSpace).reverse⟩

/-- Origin normalisation inside `Settings.model_post_init`: a string value
that is the literal wildcard stays `["*"]`; any other string is split on
commas with each element stripped; a list value is kept as is. -/
def normalizeOrigins : OriginsValue → List String
  | .str s =>
      if s = "*" then ["*"]
      else (pySplitComma s).map pyStrip
  | .list l => l

/-- `Settings.model_post_init`: abort startup (raise `ValueError`) when
login or key is unset or empty, otherwise normalise the origins value. -/
def settingsInit (base_url : String) (login key : Option String)
    (origins : OriginsValue) : Except String Settings :=
  if pyFalsy login || pyFalsy key then
    .error credentialsError
  else
    .ok { STREAMTAPE_BASE_URL := base_url
          STREAMTAPE_LOGIN := login.getD ""
          STREAMTAPE_KEY := key.getD ""
          ALLOWED_ORIGINS := normalizeOrigins origins }

/-! ## Forwarding layer (`src/api/services/streamtape_service.py`) -/

/-- A FastAPI `HTTPException`, as surfaced by the service layer. -/
structure HTTPError where
  status_code : Int
  detail : String
deriving Repr, DecidableEq

/-- The credentials held by `StreamtapeService.__init__`. -/
structure StreamtapeService where
  base_url : String
  login : String
  key : String
deriving Repr, DecidableEq

/-- `params_with_auth = {"login": self.login, "key": self.key, **params}`
inside `StreamtapeService._make_request`. -/
def params_with_auth (svc : StreamtapeService) (params : ParamDict) : ParamDict :=
  dictMerge [("login", svc.login), ("key", svc.key)] params

/-- Python truthiness of an `Optional[str]` parameter (`if folder:`):
present and non-empty. -/
def pyTruthyStr : Option String → Bool
  | none => false
  | some s => !(s == "")

/-- `str(b).lower()` for a Python bool. -/
def pyBoolLower (b : Bool) : String := if b then "true" else "false"

/-- The prefix every blanket-`except Exception` handler puts in front of
the exception text: `f"An unexpected error occurred: {exc}"`. -/
def wrapMsg (s : String) : String := "An unexpected error occurred: " ++ s

/-- Envelope interpretation in `_make_request` (lines 34–58), taking the
parsed JSON `data` and producing either the `result` value or the
`HTTPException` the caller observes.

Note the control flow of the source: the `raise HTTPException(...)` for a
non-200 envelope sits *inside* the `try:` block, and `fastapi.HTTPException`
is a subclass of `Exception`, so it is caught by the final
`except Exception as exc:` clause and re-raised as a 500 whose detail wraps
the original exception's text (`str(HTTPException)` is
`f"{status_code}: {detail}"`).  Likewise `data["result"]` on a 200 envelope
without a `result` field raises `KeyError('result')`, whose `str` is
`"'result'"`, re-raised the same way. -/
def make_request_result (data : JValue) : Except HTTPError JValue :=
  match data with
  | .jobj fields =>
    if ((jget fields "status").map pyEq200).getD false then
      match jget fields "result" with
      | some r => .ok r
      | none => .error ⟨500, wrapMsg "'result'"⟩
    else
      let baseMsg : String :=
        match jget fields "msg" with
        | some v => pyStr v
        | none => "An error occurred with the Streamtape API."
      let errMsg : String :=
        match jget fields "result" with
        | some (.jstr s) => baseMsg ++ ": " ++ s
        | _ => baseMsg
      let codeStr : String :=
        match jget fields "status" with
        | some v => pyStr v
        | none => "500"
      .error ⟨500, wrapMsg (codeStr ++ ": " ++ errMsg)⟩
  | _ =>
      -- `data.get(...)` on a non-object raises `AttributeError`, caught by
      -- the same blanket handler.
      .error ⟨500, wrapMsg ("AttributeError: " ++ pyRepr data)⟩

/-! ### Per-operation outbound parameter builders

Each mirrors the `params` dictionary its service method hands to
`_make_request` (before credential injection), using the same conditional
inserts as the Python source. -/

/-- `get_upload_url` (endpoint `/file/ul`). -/
def get_upload_url_params (folder sha256 : Option String)
    (httponly : Option Bool) : ParamDict :=
  let p : ParamDict := []
  let p := match folder with
    | some s => if s ≠ "" then dictInsert p "folder" s else p
    | none => p
  let p := match sha256 with
    | some s => if s ≠ "" then dictInsert p "sha256" s else p
    | none => p
  match httponly with
  | some b => dictInsert p "httponly" (pyBoolLower b)
  | none => p

/-- `add_remote_upload` (endpoint `/remotedl/add`). -/
def add_remote_upload_params (url : String)
    (folder headers name : Option String) : ParamDict :=
  let p : ParamDict := [("url", url)]
  let p := match folder with
    | some s => if s ≠ "" then dictInsert p "folder" s else p
    | none => p
  let p := match headers with
    | some s => if s ≠ "" then dictInsert p "headers" s else p
    | none => p
  match name with
  | some s => if s ≠ "" then dictInsert p "name" s else p
  | none => p

/-- `remove_remote_upload` (endpoint `/remotedl/remove`). -/
def remove_remote_upload_params (remote_upload_id : String) : ParamDict :=
  [("id", remote_upload_id)]

/-- `check_remote_upload_status` (endpoint `/remotedl/status`). -/
def check_remote_upload_status_params (remote_upload_id : String) : ParamDict :=
  [("id", remote_upload_id)]

/-- `list_folder_contents` (endpoint `/file/listfolder`). -/
def list_folder_contents_params (folder_id : String) : ParamDict :=
  [("folder", folder_id)]

/-- `create_folder` (endpoint `/file/createfolder`). -/
def create_folder_params (name : String) (parent_folder_id : Option String) :
    ParamDict :=
  let p : ParamDict := [("name", name)]
  match parent_folder_id with
  | some s => if s ≠ "" then dictInsert p "pid" s else p
  | none => p

/-- `rename_folder` (endpoint `/file/renamefolder`). -/
def rename_folder_params (folder_id new_name : String) : ParamDict :=
  [("folder", folder_id), ("name", new_name)]

/-- `delete_folder` (endpoint `/file/deletefolder`). -/
def delete_folder_params (folder_id : String) : ParamDict :=
  [("folder", folder_id)]

/-- `rename_file` (endpoint `/file/rename`). -/
def rename_file_params (file_id new_name : String) : ParamDict :=
  [("file", file_id), ("name", new_name)]

/-- `move_file` (endpoint `/file/move`). -/
def move_file_params (file_id destination_folder_id : String) : ParamDict :=
  [("file", file_id), ("folder", destination_folder_id)]

/-- `delete_file` (endpoint `/file/delete`). -/
def delete_file_params (file_id : String) : ParamDict :=
  [("file", file_id)]

/-- `list_running_converts` (endpoint `/file/runningconverts`). -/
def list_running_converts_params : ParamDict := []

/-- `list_failed_converts` (endpoint `/file/failedconverts`). -/
def list_failed_converts_params : ParamDict := []

/-- `get_thumbnail_image` (endpoint `/file/getsplash`). -/
def get_thumbnail_image_params (file_id : String) : ParamDict :=
  [("file", file_id)]

/-- `get_download_ticket` (endpoint `/file/dlticket`). -/
def get_download_ticket_params (file_id : String) : ParamDict :=
  [("file", file_id)]

/-- `get_final_download_link` (endpoint `/file/dl`): built and sent
directly, *without* `_make_request` and without credential injection. -/
def get_final_download_link_params (file_id ticket : String)
    (captcha_response : Option String) : ParamDict :=
  let p : ParamDict := [("file", file_id), ("ticket", ticket)]
  match captcha_response with
  | some s => if s ≠ "" then dictInsert p "captcha_response" s else p
  | none => p

/-- The `Union[str, List[str]]` argument of `get_file_info`. -/
inductive StrOrList where
  | str (s : String)
  | list (l : List String)
deriving Repr, DecidableEq

/-- `get_file_info` (endpoint `/file/info`): a list input is comma-joined. -/
def get_file_info_params (file_ids : StrOrList) : ParamDict :=
  let file_id_string := match file_ids with
    | .str s => s
    | .list l => String.intercalate "," l
  [("file", file_id_string)]

/-! ### Per-operation result interpretation

Each mirrors what the service method does with `_make_request`'s return
value, as a function of the parsed provider JSON response. -/

/-- `result is True if isinstance(result, bool) else False`. -/
def coerce_bool_result (r : Except HTTPError JValue) : Except HTTPError Bool :=
  match r with
  | .error e => .error e
  | .ok (.jbool b) => .ok b
  | .ok _ => .ok false

/-- `result if isinstance(result, dict) else {}`. -/
def coerce_dict_result (r : Except HTTPError JValue) :
    Except HTTPError (List (String × JValue)) :=
  match r with
  | .error e => .error e
  | .ok (.jobj fs) => .ok fs
  | .ok _ => .ok []

/-- Raise a 500 with the given detail unless the result is a list. -/
def require_list_result (detail : String) (r : Except HTTPError JValue) :
    Except HTTPError (List JValue) :=
  match r with
  | .error e => .error e
  | .ok (.jarr xs) => .ok xs
  | .ok _ => .error ⟨500, detail⟩

/-- Raise a 500 with the given detail unless the result is a string. -/
def require_str_result (detail : String) (r : Except HTTPError JValue) :
    Except HTTPError String :=
  match r with
  | .error e => .error e
  | .ok (.jstr s) => .ok s
  | .ok _ => .error ⟨500, detail⟩

/-- Raise a 500 with the given detail unless the result is a mapping. -/
def require_dict_result (detail : String) (r : Except HTTPError JValue) :
    Except HTTPError (List (String × JValue)) :=
  match r with
  | .error e => .error e
  | .ok (.jobj fs) => .ok fs
  | .ok _ => .error ⟨500, detail⟩

/-- `get_upload_url` returns `_make_request`'s value unchecked
(`# type: ignore [return-value]`). -/
def get_upload_url_result (resp : JValue) : Except HTTPError JValue :=
  make_request_result resp

/-- `add_remote_upload` returns `_make_request`'s value unchecked. -/
def add_remote_upload_result (resp : JValue) : Except HTTPError JValue :=
  make_request_result resp

/-- `remove_remote_upload` coerces to a bool. -/
def remove_remote_upload_result (resp : JValue) : Except HTTPError Bool :=
  coerce_bool_result (make_request_result resp)

/-- `check_remote_upload_status` coerces a non-dict to `{}`. -/
def check_remote_upload_status_result (resp : JValue) :
    Except HTTPError (List (String × JValue)) :=
  coerce_dict_result (make_request_result resp)

/-- `list_folder_contents` coerces a non-dict to `{}`. -/
def list_folder_contents_result (resp : JValue) :
    Except HTTPError (List (String × JValue)) :=
  coerce_dict_result (make_request_result resp)

/-- `create_folder` coerces a non-dict to `{}`. -/
def create_folder_result (resp : JValue) :
    Except HTTPError (List (String × JValue)) :=
  coerce_dict_result (make_request_result resp)

/-- `rename_folder` coerces to a bool. -/
def rename_folder_result (resp : JValue) : Except HTTPError Bool :=
  coerce_bool_result (make_request_result resp)

/-- `delete_folder` coerces to a bool. -/
def delete_folder_result (resp : JValue) : Except HTTPError Bool :=
  coerce_bool_result (make_request_result resp)

/-- `rename_file` coerces to a bool. -/
def rename_file_result (resp : JValue) : Except HTTPError Bool :=
  coerce_bool_result (make_request_result resp)

/-- `move_file` coerces to a bool. -/
def move_file_result (resp : JValue) : Except HTTPError Bool :=
  coerce_bool_result (make_request_result resp)

/-- `delete_file` coerces to a bool. -/
def delete_file_result (resp : JValue) : Except HTTPError Bool :=
  coerce_bool_result (make_request_result resp)

/-- `list_running_converts` raises a 500 on a non-list result. -/
def list_running_converts_result (resp : JValue) :
    Except HTTPError (List JValue) :=
  require_list_result "Unexpected response format for running converts list."
    (make_request_result resp)

/-- `list_failed_converts` raises a 500 on a non-list result. -/
def list_failed_converts_result (resp : JValue) :
    Except HTTPError (List JValue) :=
  require_list_result "Unexpected response format for failed converts list."
    (make_request_result resp)

/-- `get_thumbnail_image` raises a 500 on a non-string result. -/
def get_thumbnail_image_result (resp : JValue) : Except HTTPError String :=
  require_str_result "Unexpected response format for thumbnail URL."
    (make_request_result resp)

/-- `get_download_ticket` raises a 500 on a non-dict result. -/
def get_download_ticket_result (resp : JValue) :
    Except HTTPError (List (String × JValue)) :=
  require_dict_result "Unexpected response format for download ticket."
    (make_request_result resp)

/-- `get_file_info` raises a 500 on a non-dict result. -/
def get_file_info_result (resp : JValue) :
    Except HTTPError (List (String × JValue)) :=
  require_dict_result "Unexpected response format for file info."
    (make_request_result resp)

/-! ## Route table (`src/api/endpoints/*.py`, `src/main.py`)

A route records its HTTP method, full local path (path parameters in
`{braces}`), the remote endpoint its handler forwards to (empty for the
root informational route), and its required and optional *query*
parameters (path parameters are visible in the path itself). -/

structure Route where
  method : String
  path : String
  remote : String
  requiredQuery : List String
  optionalQuery : List String
deriving Repr, DecidableEq

/-- Routes of `upload.router` (declared with prefix `/streamtape`),
paths relative to the router prefix. -/
def upload_router_routes : List Route :=
  [ ⟨"GET", "/get_upload_url", "/file/ul", [], ["folder", "sha256", "httponly"]⟩,
    ⟨"POST", "/remote_upload/add", "/remotedl/add", ["url"], ["folder", "headers", "name"]⟩,
    ⟨"DELETE", "/remote_upload/remove/\x7bremote_upload_id\x7d", "/remotedl/remove", [], []⟩,
    ⟨"GET", "/remote_upload/status/\x7bremote_upload_id\x7d", "/remotedl/status", [], []⟩ ]

/-- Routes of `file_management.router` (declared with prefix `/v1`), in
source order — `create_folder` was moved above `list_contents`. -/
def file_management_router_routes : List Route :=
  [ ⟨"POST", "/file_manager/create_folder", "/file/createfolder", ["name"], ["parent_folder_id"]⟩,
    ⟨"GET", "/file_manager/list_contents", "/file/listfolder", ["folder_id"], []⟩,
    ⟨"PUT", "/file_manager/rename_folder/\x7bfolder_id\x7d", "/file/renamefolder", ["new_name"], []⟩,
    ⟨"DELETE", "/file_manager/delete_folder/\x7bfolder_id\x7d", "/file/deletefolder", [], []⟩,
    ⟨"PUT", "/file_manager/rename_file/\x7bfile_id\x7d", "/file/rename", ["new_name"], []⟩,
    ⟨"PUT", "/file_manager/move_file/\x7bfile_id\x7d", "/file/move", ["destination_folder_id"], []⟩,
    ⟨"DELETE", "/file_manager/delete_file/\x7bfile_id\x7d", "/file/delete", [], []⟩ ]

/-- Routes of `converts.router` (declared with prefix `/streamtape`). -/
def converts_router_routes : List Route :=
  [ ⟨"GET", "/converts/running", "/file/runningconverts", [], []⟩,
    ⟨"GET", "/converts/failed", "/file/failedconverts", [], []⟩,
    ⟨"GET", "/thumbnail/\x7bfile_id\x7d", "/file/getsplash", [], []⟩ ]

/-- Routes of `stream.router` (declared with prefix `/streamtape`). -/
def stream_router_routes : List Route :=
  [ ⟨"GET", "/stream/ticket/\x7bfile_id\x7d", "/file/dlticket", [], []⟩,
    ⟨"GET", "/stream/link/\x7bfile_id\x7d", "/file/dl", ["ticket"], ["captcha_response"]⟩,
    ⟨"GET", "/file_info/\x7bfile_ids\x7d", "/file/info", [], []⟩ ]

/-- `app.include_router` prepends the router's prefix to each route path. -/
def prefix_routes (pre : String) (rs : List Route) : List Route :=
  rs.map (fun r => { r with path := pre ++ r.path })

/-- The root informational route declared directly on the app. -/
def root_route : Route := ⟨"GET", "/", "", [], []⟩

/-- All routes of the application, in registration order (`src/main.py`
includes the upload, file-management, converts and stream routers, then
declares the root route). -/
def app_routes : List Route :=
  prefix_routes "/streamtape" upload_router_routes ++
  prefix_routes "/v1" file_management_router_routes ++
  prefix_routes "/streamtape" converts_router_routes ++
  prefix_routes "/streamtape" stream_router_routes ++
  [root_route]

/-- Modelled from the spec: the §6 route table, verbatim — local paths
exactly as printed there (no router prefixes; the spec's generic `\x7bid\x7d`
placeholder is instantiated with the path parameter's name, as licensed by
the table legend "`\x7bid\x7d` = path parameter").  The required/optional
columns are restricted to query parameters. -/
def spec_route_table : List Route :=
  [ ⟨"GET", "/get_upload_url", "/file/ul", [], ["folder", "sha256", "httponly"]⟩,
    ⟨"POST", "/remote_upload/add", "/remotedl/add", ["url"], ["folder", "headers", "name"]⟩,
    ⟨"DELETE", "/remote_upload/remove/\x7bremote_upload_id\x7d", "/remotedl/remove", [], []⟩,
    ⟨"GET", "/remote_upload/status/\x7bremote_upload_id\x7d", "/remotedl/status", [], []⟩,
    ⟨"GET", "/file_manager/list_contents", "/file/listfolder", ["folder_id"], []⟩,
    ⟨"POST", "/file_manager/create_folder", "/file/createfolder", ["name"], ["parent_folder_id"]⟩,
    ⟨"PUT", "/file_manager/rename_folder/\x7bfolder_id\x7d", "/file/renamefolder", ["new_name"], []⟩,
    ⟨"DELETE", "/file_manager/delete_folder/\x7bfolder_id\x7d", "/file/deletefolder", [], []⟩,
    ⟨"PUT", "/file_manager/rename_file/\x7bfile_id\x7d", "/file/rename", ["new_name"], []⟩,
    ⟨"PUT", "/file_manager/move_file/\x7bfile_id\x7d", "/file/move", ["destination_folder_id"], []⟩,
    ⟨"DELETE", "/file_manager/delete_file/\x7bfile_id\x7d", "/file/delete", [], []⟩,
    ⟨"GET", "/converts/running", "/file/runningconverts", [], []⟩,
    ⟨"GET", "/converts/failed", "/file/failedconverts", [], []⟩,
    ⟨"GET", "/thumbnail/\x7bfile_id\x7d", "/file/getsplash", [], []⟩,
    ⟨"GET", "/stream/ticket/\x7bfile_id\x7d", "/file/dlticket", [], []⟩,
    ⟨"GET", "/stream/link/\x7bfile_id\x7d", "/file/dl", ["ticket"], ["captcha_response"]⟩,
    ⟨"GET", "/file_info/\x7bfile_ids\x7d", "/file/info", [], []⟩ ]

/-- Boolean prefix test on character lists. -/
def charsPrefixOf : List Char → List Char → Bool
  | [], _ => true
  | _ :: _, [] => false
  | a :: as, b :: bs => a == b && charsPrefixOf as bs

/-- The router prefix actually applied to a spec-table path: the
file-manager router carries `/v1`, every other router `/streamtape`. -/
def router_prefix_for (path : String) : String :=
  if charsPrefixOf "/file_manager".data path.data then "/v1" else "/streamtape"

/-- The spec's route table with the actual router prefixes applied. -/
def spec_route_table_prefixed : List Route :=
  spec_route_table.map (fun r => { r with path := router_prefix_for r.path ++ r.path })

/-! ## Shared helper notions and lemmas -/

/-- The outbound parameters of an operation routed through `_make_request`
carry the configured credentials under `login` and `key`. -/
def auth_injected (svc : StreamtapeService) (p : ParamDict) : Prop :=
  dictGet (params_with_auth svc p) "login" = some svc.login ∧
  dictGet (params_with_auth svc p) "key" = some svc.key

/-- Behaviour of a boolean-returning operation on a status-200 envelope:
a present result yields `true` exactly for the boolean `true` and `false`
for every other present value, while an absent result surfaces the
(wrapped) `KeyError` as a 500. -/
def bool_op_behaviour (f : JValue → Except HTTPError Bool)
    (fields : List (String × JValue)) (v : JValue) : Prop :=
  (jget fields "result" = some v →
    ((f (.jobj fields) = .ok true ↔ v = .jbool true) ∧
     (v ≠ .jbool true → f (.jobj fields) = .ok false))) ∧
  (jget fields "result" = none →
    f (.jobj fields) = .error ⟨500, wrapMsg "'result'"⟩)

lemma make_request_result_200_some (fields : List (String × JValue))
    (r : JValue) (h200 : jget fields "status" = some (.jnum 200))
    (hr : jget fields "result" = some r) :
    make_request_result (.jobj fields) = .ok r := by
  simp [make_request_result, h200, hr, pyEq200]

lemma make_request_result_200_none (fields : List (String × JValue))
    (h200 : jget fields "status" = some (.jnum 200))
    (hr : jget fields "result" = none) :
    make_request_result (.jobj fields) = .error ⟨500, wrapMsg "'result'"⟩ := by
  simp [make_request_result, h200, hr, pyEq200]

lemma coerce_bool_op_behaviour (f : JValue → Except HTTPError Bool)
    (hf : ∀ resp, f resp = coerce_bool_result (make_request_result resp))
    (fields : List (String × JValue)) (v : JValue)
    (h200 : jget fields "status" = some (.jnum 200)) :
    bool_op_behaviour f fields v := by
  constructor
  · intro hr
    rw [hf, make_request_result_200_some fields v h200 hr]
    cases v <;> simp [coerce_bool_result]
  · intro hr
    rw [hf, make_request_result_200_none fields h200 hr]
    rfl

/-! ## Claims -/

/-- C1: the final-download-link operation (`/stream/link/{id}`, remote
`/file/dl`) never includes `login` or `key` among its outbound parameters,
for every combination of caller inputs; its outbound parameter set is
exactly `{file, ticket}` plus `captcha_response` when a (non-empty) one is
supplied. -/
theorem C1_final_link_credential_free :
    ∀ (file_id ticket : String) (captcha_response : Option String),
      dictGet (get_final_download_link_params file_id ticket captcha_response)
        "login" = none ∧
      dictGet (get_final_download_link_params file_id ticket captcha_response)
        "key" = none ∧
      dictKeys (get_final_download_link_params file_id ticket captcha_response) =
        (if pyTruthyStr captcha_response then
          ["file", "ticket", "captcha_response"]
        else
          ["file", "ticket"]) := by
  intro file_id ticket captcha_response
  cases captcha_response with
  | none =>
      simp [get_final_download_link_params, pyTruthyStr, dictGet, dictKeys]
  | some s =>
      by_cases hs : s = "" <;>
        simp [get_final_download_link_params, pyTruthyStr, hs, dictInsert,
          dictGet, dictKeys]

set_option maxHeartbeats 2000000 in
/-- C2: every operation other than the final-download-link sends outbound
parameters containing `login` and `key` whose values are exactly the
configured credentials, for all caller inputs (caller input can never
override them, since no operation's own parameters use those keys). -/
theorem C2_credentials_always_injected :
    ∀ (svc : StreamtapeService),
      (∀ folder sha256 httponly,
        auth_injected svc (get_upload_url_params folder sha256 httponly)) ∧
      (∀ url folder headers name,
        auth_injected svc (add_remote_upload_params url folder headers name)) ∧
      (∀ remote_upload_id,
        auth_injected svc (remove_remote_upload_params remote_upload_id)) ∧
      (∀ remote_upload_id,
        auth_injected svc (check_remote_upload_status_params remote_upload_id)) ∧
      (∀ folder_id,
        auth_injected svc (list_folder_contents_params folder_id)) ∧
      (∀ name parent_folder_id,
        auth_injected svc (create_folder_params name parent_folder_id)) ∧
      (∀ folder_id new_name,
        auth_injected svc (rename_folder_params folder_id new_name)) ∧
      (∀ folder_id, auth_injected svc (delete_folder_params folder_id)) ∧
      (∀ file_id new_name,
        auth_injected svc (rename_file_params file_id new_name)) ∧
      (∀ file_id destination_folder_id,
        auth_injected svc (move_file_params file_id destination_folder_id)) ∧
      (∀ file_id, auth_injected svc (delete_file_params file_id)) ∧
      auth_injected svc list_running_converts_params ∧
      auth_injected svc list_failed_converts_params ∧
      (∀ file_id, auth_injected svc (get_thumbnail_image_params file_id)) ∧
      (∀ file_id, auth_injected svc (get_download_ticket_params file_id)) ∧
      (∀ file_ids, auth_injected svc (get_file_info_params file_ids)) := by
  intro svc
  refine ⟨?_, ?_, ?_, ?_, ?_, ?_, ?_, ?_, ?_, ?_, ?_, ?_, ?_, ?_, ?_, ?_⟩
  · intro folder sha256 httponly
    cases folder <;> cases sha256 <;> cases httponly <;>
      simp +decide [auth_injected, params_with_auth, get_upload_url_params,
        pyBoolLower, dictMerge, dictInsert, dictGet] <;>
      split_ifs <;>
      simp +decide [dictMerge, dictInsert, dictGet]
  · intro url folder headers name
    cases folder <;> cases headers <;> cases name <;>
      simp +decide [auth_injected, params_with_auth, add_remote_upload_params,
        dictMerge, dictInsert, dictGet] <;>
      split_ifs <;>
      simp +decide [dictMerge, dictInsert, dictGet]
  · intro remote_upload_id
    simp +decide [auth_injected, params_with_auth, remove_remote_upload_params,
      dictMerge, dictInsert, dictGet]
  · intro remote_upload_id
    simp +decide [auth_injected, params_with_auth,
      check_remote_upload_status_params, dictMerge, dictInsert, dictGet]
  · intro folder_id
    simp +decide [auth_injected, params_with_auth, list_folder_contents_params,
      dictMerge, dictInsert, dictGet]
  · intro name parent_folder_id
    cases parent_folder_id <;>
      simp +decide [auth_injected, params_with_auth, create_folder_params,
        dictMerge, dictInsert, dictGet] <;>
      split_ifs <;>
      simp +decide [dictMerge, dictInsert, dictGet]
  · intro folder_id new_name
    simp +decide [auth_injected, params_with_auth, rename_folder_params,
      dictMerge, dictInsert, dictGet]
  · intro folder_id
    simp +decide [auth_injected, params_with_auth, delete_folder_params,
      dictMerge, dictInsert, dictGet]
  · intro file_id new_name
    simp +decide [auth_injected, params_with_auth, rename_file_params,
      dictMerge, dictInsert, dictGet]
  · intro file_id destination_folder_id
    simp +decide [auth_injected, params_with_auth, move_file_params,
      dictMerge, dictInsert, dictGet]
  · intro file_id
    simp +decide [auth_injected, params_with_auth, delete_file_params,
      dictMerge, dictInsert, dictGet]
  · simp +decide [auth_injected, params_with_auth, list_running_converts_params,
      dictMerge, dictInsert, dictGet]
  · simp +decide [auth_injected, params_with_auth, list_failed_converts_params,
      dictMerge, dictInsert, dictGet]
  · intro file_id
    simp +decide [auth_injected, params_with_auth, get_thumbnail_image_params,
      dictMerge, dictInsert, dictGet]
  · intro file_id
    simp +decide [auth_injected, params_with_auth, get_download_ticket_params,
      dictMerge, dictInsert, dictGet]
  · intro file_ids
    cases file_ids <;>
      simp +decide [auth_injected, params_with_auth, get_file_info_params,
        dictMerge, dictInsert, dictGet]

/-- C3: counterexample — on the envelope `{"status": 200}` with the
`result` field absent, the folder-rename wrapper does not return `false`
as the claim states: the `data["result"]` access raises `KeyError`, which
the blanket `except Exception` surfaces as a 500 failure. -/
theorem C3_counterexample_absent_result :
    rename_folder_result (.jobj [("status", .jnum 200)]) =
      .error ⟨500, "An unexpected error occurred: 'result'"⟩ ∧
    rename_folder_result (.jobj [("status", .jnum 200)]) ≠ Except.ok false := by
  constructor
  · rfl
  · intro hc
    rw [show rename_folder_result (.jobj [("status", .jnum 200)]) =
          .error ⟨500, "An unexpected error occurred: 'result'"⟩ from rfl] at hc
    exact Except.noConfusion hc

/-- C3 (amended): for the six boolean-returning operations (rename folder,
delete folder, rename file, move file, delete file, remove remote-upload),
given a status-200 envelope, a *present* `result` yields `true` iff it is
exactly the boolean `true` (a string `"true"`, a number `1`, or any other
value yields `false`); an *absent* `result` field does not yield `false`
but surfaces a 500 failure (wrapped `KeyError`). -/
theorem C3_amended_bool_coercion (fields : List (String × JValue)) (v : JValue)
    (h200 : jget fields "status" = some (.jnum 200)) :
    bool_op_behaviour rename_folder_result fields v ∧
    bool_op_behaviour delete_folder_result fields v ∧
    bool_op_behaviour rename_file_result fields v ∧
    bool_op_behaviour move_file_result fields v ∧
    bool_op_behaviour delete_file_result fields v ∧
    bool_op_behaviour remove_remote_upload_result fields v :=
  ⟨coerce_bool_op_behaviour _ (fun _ => rfl) fields v h200,
   coerce_bool_op_behaviour _ (fun _ => rfl) fields v h200,
   coerce_bool_op_behaviour _ (fun _ => rfl) fields v h200,
   coerce_bool_op_behaviour _ (fun _ => rfl) fields v h200,
   coerce_bool_op_behaviour _ (fun _ => rfl) fields v h200,
   coerce_bool_op_behaviour _ (fun _ => rfl) fields v h200⟩

/-- Witness for C3 (amended): the string `"true"` coerces to `false`, the
boolean `true` to `true`. -/
theorem C3_amended_bool_coercion_witness :
    rename_folder_result
      (.jobj [("status", .jnum 200), ("result", .jstr "true")]) = .ok false ∧
    delete_file_result
      (.jobj [("status", .jnum 200), ("result", .jbool true)]) = .ok true := by
  have h1 := C3_amended_bool_coercion
    [("status", .jnum 200), ("result", .jstr "true")] (.jstr "true") rfl
  have h2 := C3_amended_bool_coercion
    [("status", .jnum 200), ("result", .jbool true)] (.jbool true) rfl
  exact ⟨((h1.1).1 rfl).2 (fun hc => JValue.noConfusion hc),
         (((h2.2.2.2.2.1).1 rfl).1).mpr rfl⟩

/-- C4: counterexample — on a status-200 envelope whose `result` is the
boolean `true` (not a mapping), the folder-listing, create-folder and
remote-upload-status wrappers silently return an empty mapping instead of
surfacing a 500-class failure. -/
theorem C4_counterexample_silent_empty_dict :
    list_folder_contents_result
      (.jobj [("status", .jnum 200), ("result", .jbool true)]) = .ok [] ∧
    create_folder_result
      (.jobj [("status", .jnum 200), ("result", .jbool true)]) = .ok [] ∧
    check_remote_upload_status_result
      (.jobj [("status", .jnum 200), ("result", .jbool true)]) = .ok [] :=
  ⟨rfl, rfl, rfl⟩

/-- C4 (amended): on a status-200 envelope with a mismatched `result`
shape, only the list-returning, string-returning, download-ticket and
file-info operations surface a 500-class failure; `list_folder_contents`,
`create_folder` and `check_remote_upload_status` silently substitute an
empty mapping, and `get_upload_url` and `add_remote_upload` pass the
mismatched result through unchecked. -/
theorem C4_amended_shape_mismatch (fields : List (String × JValue)) (v : JValue)
    (h200 : jget fields "status" = some (.jnum 200))
    (hres : jget fields "result" = some v) :
    ((∀ xs, v ≠ .jarr xs) →
      list_running_converts_result (.jobj fields) =
        .error ⟨500, "Unexpected response format for running converts list."⟩ ∧
      list_failed_converts_result (.jobj fields) =
        .error ⟨500, "Unexpected response format for failed converts list."⟩) ∧
    ((∀ s, v ≠ .jstr s) →
      get_thumbnail_image_result (.jobj fields) =
        .error ⟨500, "Unexpected response format for thumbnail URL."⟩) ∧
    ((∀ fs, v ≠ .jobj fs) →
      get_download_ticket_result (.jobj fields) =
        .error ⟨500, "Unexpected response format for download ticket."⟩ ∧
      get_file_info_result (.jobj fields) =
        .error ⟨500, "Unexpected response format for file info."⟩ ∧
      list_folder_contents_result (.jobj fields) = .ok [] ∧
      create_folder_result (.jobj fields) = .ok [] ∧
      check_remote_upload_status_result (.jobj fields) = .ok []) ∧
    get_upload_url_result (.jobj fields) = .ok v ∧
    add_remote_upload_result (.jobj fields) = .ok v := by
  have hmk : make_request_result (.jobj fields) = .ok v :=
    make_request_result_200_some fields v h200 hres
  refine ⟨?_, ?_, ?_, hmk, hmk⟩
  · intro hv
    constructor
    · unfold list_running_converts_result
      rw [hmk]
      cases v <;> first | rfl | exact absurd rfl (hv _)
    · unfold list_failed_converts_result
      rw [hmk]
      cases v <;> first | rfl | exact absurd rfl (hv _)
  · intro hv
    unfold get_thumbnail_image_result
    rw [hmk]
    cases v <;> first | rfl | exact absurd rfl (hv _)
  · intro hv
    refine ⟨?_, ?_, ?_, ?_, ?_⟩
    · unfold get_download_ticket_result
      rw [hmk]
      cases v <;> first | rfl | exact absurd rfl (hv _)
    · unfold get_file_info_result
      rw [hmk]
      cases v <;> first | rfl | exact absurd rfl (hv _)
    · unfold list_folder_contents_result
      rw [hmk]
      cases v <;> first | rfl | exact absurd rfl (hv _)
    · unfold create_folder_result
      rw [hmk]
      cases v <;> first | rfl | exact absurd rfl (hv _)
    · unfold check_remote_upload_status_result
      rw [hmk]
      cases v <;> first | rfl | exact absurd rfl (hv _)

/-- Witness for C4 (amended) at `result = true` (a boolean, matching no
expected shape): the converts listing and ticket operations fail with a
500, while the folder listing silently returns an empty mapping. -/
theorem C4_amended_shape_mismatch_witness :
    list_running_converts_result
      (.jobj [("status", .jnum 200), ("result", .jbool true)]) =
        .error ⟨500, "Unexpected response format for running converts list."⟩ ∧
    get_thumbnail_image_result
      (.jobj [("status", .jnum 200), ("result", .jbool true)]) =
        .error ⟨500, "Unexpected response format for thumbnail URL."⟩ ∧
    get_download_ticket_result
      (.jobj [("status", .jnum 200), ("result", .jbool true)]) =
        .error ⟨500, "Unexpected response format for download ticket."⟩ ∧
    list_folder_contents_result
      (.jobj [("status", .jnum 200), ("result", .jbool true)]) = .ok [] := by
  have h := C4_amended_shape_mismatch
    [("status", .jnum 200), ("result", .jbool true)] (.jbool true) rfl rfl
  exact ⟨(h.1 (fun _ hc => JValue.noConfusion hc)).1,
         h.2.1 (fun _ hc => JValue.noConfusion hc),
         (h.2.2.1 (fun _ hc => JValue.noConfusion hc)).1,
         (h.2.2.1 (fun _ hc => JValue.noConfusion hc)).2.2.1⟩

/-- C5: for the two list-returning operations (running and failed
conversions), a status-200 envelope whose `result` is present but not a
sequence makes the operation fail with an internal-inconsistency 500
naming the operation, rather than returning an empty or coerced list. -/
theorem C5_list_ops_reject_nonsequence (fields : List (String × JValue))
    (v : JValue) (h200 : jget fields "status" = some (.jnum 200))
    (hres : jget fields "result" = some v)
    (hv : ∀ xs, v ≠ .jarr xs) :
    list_running_converts_result (.jobj fields) =
      .error ⟨500, "Unexpected response format for running converts list."⟩ ∧
    list_failed_converts_result (.jobj fields) =
      .error ⟨500, "Unexpected response format for failed converts list."⟩ := by
  have hmk : make_request_result (.jobj fields) = .ok v :=
    make_request_result_200_some fields v h200 hres
  constructor
  · unfold list_running_converts_result
    rw [hmk]
    cases v <;> first | rfl | exact absurd rfl (hv _)
  · unfold list_failed_converts_result
    rw [hmk]
    cases v <;> first | rfl | exact absurd rfl (hv _)

/-- Witness for C5 at `result = {}` (a mapping, not a sequence). -/
theorem C5_list_ops_reject_nonsequence_witness :
    list_running_converts_result
      (.jobj [("status", .jnum 200), ("result", .jobj [])]) =
        .error ⟨500, "Unexpected response format for running converts list."⟩ ∧
    list_failed_converts_result
      (.jobj [("status", .jnum 200), ("result", .jobj [])]) =
        .error ⟨500, "Unexpected response format for failed converts list."⟩ :=
  C5_list_ops_reject_nonsequence
    [("status", .jnum 200), ("result", .jobj [])] (.jobj []) rfl rfl
    (fun _ hc => JValue.noConfusion hc)

/-- C6: the claim matches the code's visible intent (lines 34–43 of the
service build an `HTTPException` carrying the envelope's own status and
msg), but that exception is raised inside the `try:` block and
`fastapi.HTTPException` subclasses `Exception`, so the final
`except Exception` clause catches it and re-raises a 500 whose detail wraps
the original text.  On the envelope `{"status": 400, "msg": "Folder not
found"}`, delete-folder therefore fails with status 500 and message
"An unexpected error occurred: 400: Folder not found" instead of the
claimed status 400 with message "Folder not found". -/
theorem C6_envelope_error_rewrapped_as_500 :
    delete_folder_result
      (.jobj [("status", .jnum 400), ("msg", .jstr "Folder not found")]) =
        .error ⟨500, "An unexpected error occurred: 400: Folder not found"⟩ ∧
    delete_folder_result
      (.jobj [("status", .jnum 400), ("msg", .jstr "Folder not found")]) ≠
        .error ⟨400, "Folder not found"⟩ := by
  constructor
  · rfl
  · intro hc
    rw [show delete_folder_result
          (.jobj [("status", .jnum 400), ("msg", .jstr "Folder not found")]) =
          .error ⟨500, "An unexpected error occurred: 400: Folder not found"⟩
        from rfl] at hc
    simp at hc

/-- C7: the configuration loader aborts startup whenever the login or the
key is missing from the environment, and normalises the allowed-origins
value: the literal wildcard string stays a single-element wildcard list,
while any other string is split on commas with each element stripped of
surrounding whitespace. -/
theorem C7_config_validation :
    (∀ base_url key origins,
      settingsInit base_url none key origins = .error credentialsError) ∧
    (∀ base_url login origins,
      settingsInit base_url login none origins = .error credentialsError) ∧
    normalizeOrigins (.str "*") = ["*"] ∧
    (∀ s, s ≠ "*" →
      normalizeOrigins (.str s) = (pySplitComma s).map pyStrip) := by
  refine ⟨?_, ?_, rfl, ?_⟩
  · intro base_url key origins
    simp [settingsInit, pyFalsy]
  · intro base_url login origins
    simp [settingsInit, pyFalsy]
  · intro s hs
    simp [normalizeOrigins, hs]

/-- Witness for C7: both missing-credential aborts, and normalisation of
`"*"` and of a concrete comma-separated origin string with whitespace. -/
theorem C7_config_validation_witness :
    settingsInit "https://api.streamtape.com" none (some "k") (.str "*") =
      .error credentialsError ∧
    settingsInit "https://api.streamtape.com" (some "l") none (.str "*") =
      .error credentialsError ∧
    normalizeOrigins (.str "*") = ["*"] ∧
    normalizeOrigins (.str " https://a.example ,https://b.example") =
      ["https://a.example", "https://b.example"] := by
  have h := C7_config_validation
  refine ⟨h.1 _ _ _, h.2.1 _ _ _, h.2.2.1, ?_⟩
  rw [h.2.2.2 " https://a.example ,https://b.example" (by decide)]
  rfl

/-- C8: counterexample — the §6 table lists `GET /file_manager/list_contents`,
but no application route has that path: `file_management.router` is mounted
with the `/v1` prefix (and the other routers with `/streamtape`), so the
gateway's routes are not exactly the paths of the table. -/
theorem C8_counterexample_unprefixed_path_missing :
    (⟨"GET", "/file_manager/list_contents", "/file/listfolder",
        ["folder_id"], []⟩ : Route) ∈ spec_route_table ∧
    app_routes.all
      (fun r => r.path != "/file_manager/list_contents") = true := by
  decide

/-- C8 (amended): the gateway's local routes are exactly the §6 table
routes, each path prefixed with its router's mount prefix (`/v1` for the
file-manager routes, `/streamtape` for the rest), plus a root
informational route; each carries the stated method and remote endpoint,
and the folder-listing parameter `folder_id` is mandatory.  (Registration
order differs from the table only in that create-folder precedes
list-contents, rows 5 and 6 of the table.) -/
theorem C8_amended_routes_are_prefixed_table :
    app_routes =
      spec_route_table_prefixed.take 4 ++
      ((spec_route_table_prefixed.drop 4).take 2).reverse ++
      spec_route_table_prefixed.drop 6 ++
      [root_route] ∧
    (⟨"GET", "/v1/file_manager/list_contents", "/file/listfolder",
        ["folder_id"], []⟩ : Route) ∈ app_routes := by
  decide

/-- C9: the caller-to-remote field renames are reproduced exactly: folder
rename sends the target folder ID under `folder` and the new name under
`name` (never swapped); create-folder sends the (non-empty) caller
`parent_folder_id` under `pid`; and the file operations send the file ID
under `file`. -/
theorem C9_field_renames :
    ∀ (folder_id new_name name parent_id file_id destination_folder_id : String),
      dictGet (rename_folder_params folder_id new_name) "folder" =
        some folder_id ∧
      dictGet (rename_folder_params folder_id new_name) "name" =
        some new_name ∧
      dictGet (create_folder_params name (some parent_id)) "pid" =
        (if parent_id = "" then none else some parent_id) ∧
      dictGet (create_folder_params name none) "pid" = none ∧
      dictGet (rename_file_params file_id new_name) "file" = some file_id ∧
      dictGet (rename_file_params file_id new_name) "name" = some new_name ∧
      dictGet (move_file_params file_id destination_folder_id) "file" =
        some file_id ∧
      dictGet (move_file_params file_id destination_folder_id) "folder" =
        some destination_folder_id ∧
      dictGet (delete_file_params file_id) "file" = some file_id ∧
      dictGet (get_thumbnail_image_params file_id) "file" = some file_id ∧
      dictGet (get_download_ticket_params file_id) "file" = some file_id := by
  intro folder_id new_name name parent_id file_id destination_folder_id
  refine ⟨?_, ?_, ?_, ?_, ?_, ?_, ?_, ?_, ?_, ?_, ?_⟩
  · simp +decide [rename_folder_params, dictGet]
  · simp +decide [rename_folder_params, dictGet]
  · by_cases hp : parent_id = "" <;>
      simp +decide [create_folder_params, dictGet, dictInsert, hp]
  · simp +decide [create_folder_params, dictGet]
  · simp +decide [rename_file_params, dictGet]
  · simp +decide [rename_file_params, dictGet]
  · simp +decide [move_file_params, dictGet]
  · simp +decide [move_file_params, dictGet]
  · simp +decide [delete_file_params, dictGet]
  · simp +decide [get_thumbnail_image_params, dictGet]
  · simp +decide [get_download_ticket_params, dictGet]

/-- C10: optional caller-supplied string parameters equal to the empty
string are treated as absent and omitted from the outbound parameters
(folder and sha256 on get-upload-url, folder, headers and name on
add-remote-upload, captcha_response on the final link), whereas the
optional boolean `httponly` is omitted only when unset and is forwarded
as the lowercase string `"false"` (resp. `"true"`) when explicitly set. -/
theorem C10_empty_string_optionals_omitted :
    (∀ sha256 httponly, get_upload_url_params (some "") sha256 httponly =
        get_upload_url_params none sha256 httponly) ∧
    (∀ folder httponly, get_upload_url_params folder (some "") httponly =
        get_upload_url_params folder none httponly) ∧
    (∀ url headers name, add_remote_upload_params url (some "") headers name =
        add_remote_upload_params url none headers name) ∧
    (∀ url folder name, add_remote_upload_params url folder (some "") name =
        add_remote_upload_params url folder none name) ∧
    (∀ url folder headers,
        add_remote_upload_params url folder headers (some "") =
          add_remote_upload_params url folder headers none) ∧
    (∀ file_id ticket, get_final_download_link_params file_id ticket (some "") =
        get_final_download_link_params file_id ticket none) ∧
    (∀ folder sha256,
        dictGet (get_upload_url_params folder sha256 none) "httponly" = none) ∧
    (∀ folder sha256,
        dictGet (get_upload_url_params folder sha256 (some false)) "httponly" =
          some "false") ∧
    (∀ folder sha256,
        dictGet (get_upload_url_params folder sha256 (some true)) "httponly" =
          some "true") := by
  refine ⟨?_, ?_, ?_, ?_, ?_, ?_, ?_, ?_, ?_⟩
  · intro sha256 httponly
    simp [get_upload_url_params]
  · intro folder httponly
    simp [get_upload_url_params]
  · intro url headers name
    simp [add_remote_upload_params]
  · intro url folder name
    simp [add_remote_upload_params]
  · intro url folder headers
    simp [add_remote_upload_params]
  · intro file_id ticket
    simp [get_final_download_link_params]
  · intro folder sha256
    cases folder <;> cases sha256 <;>
      simp only [get_upload_url_params] <;>
      (try split_ifs) <;>
      simp +decide [dictGet, dictInsert, pyBoolLower]
  · intro folder sha256
    cases folder <;> cases sha256 <;>
      simp only [get_upload_url_params] <;>
      (try split_ifs) <;>
      simp +decide [dictGet, dictInsert, pyBoolLower]
  · intro folder sha256
    cases folder <;> cases sha256 <;>
      simp only [get_upload_url_params] <;>
      (try split_ifs) <;>
      simp +decide [dictGet, dictInsert, pyBoolLower]

end AuraHub
